import Mathlib

/-!
Shallow embedding of `homework.py`, the single source file of the
`check_status_homework_bot` repository: a Telegram bot that polls the
Практикум.Домашка API, formats a verdict for the newest homework and
notifies a chat, on a fixed 600-second cycle.

Modelling choices, all traceable to the source:
  * JSON values are the inductive `Json`; Python dicts become association
    lists with first-match lookup.
  * Python exceptions become the inductive `PyError`; `renderError` models
    Python's `str(e)` for each kind (notably `str(KeyError(k))` is
    `repr(k)`, i.e. the key wrapped in single quotes, and
    `str(requests.HTTPError())` with no args is the empty string).
  * The network and Telegram are oracles: `HttpOutcome` says whether
    `requests.get` raised `requests.RequestException` or returned a status
    code and JSON body; the Booleans `okTry`/`okExc` say whether the
    Telegram send attempted inside the `try` block (through the wrapper
    `send_message`) resp. inside the `except` block (a bare
    `bot.send_message`) raises `telegram.error.TelegramError`.
  * One iteration of `main`'s `while True` body is `run_cycle`; its result
    records the final loop state, the list of outbound send attempts (the
    message text of each), whether an exception escaped the `except` block
    (crashing the loop), and the sleep the `finally` block performs.
  * `NotSendMessageTelegram` lives in `exceptions.py`, which is not among
    the staged files; it is modelled as a plain exception kind carrying its
    message, the standard behaviour of an `Exception` subclass constructed
    with one string argument.
-/

/-- JSON values as the program sees them after `response.json()`.  Objects
are association lists; Python dict keys are unique, and lookup takes the
first match. -/
inductive Json where
  | null : Json
  | bool (b : Bool) : Json
  | int (n : Int) : Json
  | str (s : String) : Json
  | arr (elems : List Json) : Json
  | obj (fields : List (String × Json)) : Json

/-- Lookup of a string key in a JSON object's field list (Python `d[k]` /
`d.get(k)` on the dicts this program handles). -/
def lookupJson (key : String) : List (String × Json) → Option Json
  | [] => none
  | (k, v) :: rest => if k = key then some v else lookupJson key rest

/-- Python `key in d`. -/
def containsKey (key : String) (fields : List (String × Json)) : Bool :=
  (lookupJson key fields).isSome

/-- The Python exceptions the program can raise, by kind.
`nameErr v` is an `UnboundLocalError` (a `NameError`) for local variable
`v`; `httpErr` is `requests.HTTPError()` raised with no arguments;
`requestExc` is `requests.RequestException` (the transport failure);
`notSendMessageTelegram` is the project's own exception from
`exceptions.py`. -/
inductive PyError where
  | typeErr (msg : String)
  | keyErr (key : String)
  | nameErr (varName : String)
  | httpErr
  | requestExc
  | notSendMessageTelegram (msg : String)
  deriving DecidableEq

/-- Python's `str(e)` for each exception kind, as interpolated by
`f'Сбой в работе программы: \x7berror\x7d'` in `main`.  `str(KeyError(k))`
is `repr(k)` (the key in single quotes); `str` of an exception built with
no arguments is the empty string; an `UnboundLocalError`'s text names the
variable. -/
def renderError : PyError → String
  | .typeErr msg => msg
  | .keyErr key => "\x27" ++ key ++ "\x27"
  | .nameErr v => "local variable \x27" ++ v ++ "\x27 referenced before assignment"
  | .httpErr => ""
  | .requestExc => ""
  | .notSendMessageTelegram msg => msg

/-- Lookup in a list of string pairs (Python dict of strings). -/
def lookupStr (key : String) : List (String × String) → Option String
  | [] => none
  | (k, v) :: rest => if k = key then some v else lookupStr key rest

/-- The verdict table `HOMEWORK_VERDICTS` of `homework.py`. -/
def HOMEWORK_VERDICTS : List (String × String) :=
  [("approved", "Работа проверена: ревьюеру всё понравилось. Ура!"),
   ("reviewing", "Работа взята на проверку ревьюером."),
   ("rejected", "Работа проверена: у ревьюера есть замечания.")]

/-- The constant `RETRY_PERIOD` (600 seconds) of `homework.py`. -/
def RETRY_PERIOD : Nat := 600

/-- Python `HOMEWORK_VERDICTS[status]` where `status` is an arbitrary JSON
value: only a string equal to one of the table's keys succeeds. -/
def verdictLookup (status : Json) : Option String :=
  match status with
  | .str s => lookupStr s HOMEWORK_VERDICTS
  | _ => none

/-- Python `str(v)` as used by the f-string of `parse_status`.  String and
integer renderings are exact; no claim exercises the container or
null/bool renderings, which are abbreviated. -/
def pyStr : Json → String
  | .null => "None"
  | .bool true => "True"
  | .bool false => "False"
  | .int n => toString n
  | .str s => s
  | .arr _ => "[...]"
  | .obj _ => "\x7b...\x7d"

/-- What `requests.get` did inside `get_api_answer`: either it raised
`requests.RequestException` (DNS failure, connection error, timeout), or it
returned a response with an HTTP status code and a JSON body. -/
inductive HttpOutcome where
  | transportFail : HttpOutcome
  | response (status : Nat) (body : Json) : HttpOutcome

/-- Embedding of `get_api_answer` (homework.py lines 114-145).  The
`except requests.RequestException` clause only logs and does not re-raise;
control then reaches `response.status_code` with the local `response`
unbound, so a transport failure surfaces as `UnboundLocalError` for
`response`, not as the transport exception.  A completed call with a
non-200 status raises `requests.HTTPError()` (no arguments); a 200 call
returns the parsed JSON body verbatim. -/
def get_api_answer : HttpOutcome → Except PyError Json
  | .transportFail => .error (.nameErr "response")
  | .response status body =>
    if status ≠ 200 then .error .httpErr else .ok body

/-- Embedding of `check_response` (homework.py lines 148-169): succeeds and
returns the `homeworks` value exactly when the response is a dict, both
keys `homeworks` and `current_date` are present, and the `homeworks` value
is a list; any other shape raises
`TypeError('Тип ответа API не соответвует ожидаемому')`.  The type of
`current_date` is not inspected. -/
def check_response (response : Json) : Except PyError (List Json) :=
  match response with
  | .obj fields =>
    match lookupJson "homeworks" fields, containsKey "current_date" fields with
    | some (.arr homeworks), true => .ok homeworks
    | _, _ => .error (.typeErr "Тип ответа API не соответвует ожидаемому")
  | _ => .error (.typeErr "Тип ответа API не соответвует ожидаемому")

/-- Embedding of `parse_status` (homework.py lines 172-194).  When either
key `homework_name` or `status` is missing, the `except KeyError` clause
only logs; both locals are then unbound (the right-hand tuple raised before
assignment), and evaluating `HOMEWORK_VERDICTS[status]` raises
`UnboundLocalError` for `status`, which the inner `except KeyError` does
not catch.  A present status not in the verdict table raises
`KeyError('Недокументированный статус домашней работы')`.  On success the
f-string interpolates the name and the verdict.  A non-dict record would
raise a `TypeError` from subscripting whose message depends on the record's
type; no claim exercises that branch, so its message is left empty. -/
def parse_status (homework : Json) : Except PyError String :=
  match homework with
  | .obj fields =>
    match lookupJson "homework_name" fields, lookupJson "status" fields with
    | some nameVal, some statusVal =>
      match verdictLookup statusVal with
      | some verdict =>
        .ok ("Изменился статус проверки работы \"" ++ pyStr nameVal ++ "\". " ++ verdict)
      | none => .error (.keyErr "Недокументированный статус домашней работы")
    | _, _ => .error (.nameErr "status")
  | _ => .error (.typeErr "")

/-- Embedding of `send_message` (homework.py lines 93-111): `ok` says
whether `bot.send_message` succeeded; on `telegram.error.TelegramError` the
wrapper logs and raises `NotSendMessageTelegram` with its fixed message. -/
def send_message (ok : Bool) : Except PyError Unit :=
  if ok then .ok ()
  else .error (.notSendMessageTelegram
    "Ошибка в работе TelegramBot, cообщениe не отправлено")

/-- The mutable state of `main`'s loop: the time cursor `timestamp` (an
`int` at startup, overwritten by the response's `current_date`, which is
whatever JSON value the server sent) and the deduplication cache
`last_message` (Python `None` initially). -/
structure LoopState where
  timestamp : Json
  last_message : Option String

/-- What one iteration of `main`'s `while True` body did: the loop state
after the iteration, the outbound send attempts in order (each the message
text handed to Telegram), whether an exception escaped the `except` block
(terminating the loop), and the sleep the `finally` block performs. -/
structure CycleResult where
  state : LoopState
  attempts : List String
  crashed : Bool
  slept : Nat

/-- Embedding of the `except Exception` block of `main` (homework.py lines
213-218): render the error as `f'Сбой в работе программы: \x7berror\x7d'`;
if it equals `last_message` it is suppressed; otherwise `bot.send_message`
is attempted directly (`okExc` its outcome) and only on success is
`last_message` updated — if that bare send raises, the exception escapes
the `except` block and the loop terminates.  `prior` carries the send
attempts already made earlier in the iteration.  The `finally` block sleeps
`RETRY_PERIOD` seconds in every case. -/
def handleError (st : LoopState) (e : PyError) (okExc : Bool)
    (prior : List String) : CycleResult :=
  let message := "Сбой в работе программы: " ++ renderError e
  if st.last_message = some message then
    { state := st, attempts := prior, crashed := false, slept := RETRY_PERIOD }
  else if okExc then
    { state := { st with last_message := some message },
      attempts := prior ++ [message], crashed := false, slept := RETRY_PERIOD }
  else
    { state := st, attempts := prior ++ [message], crashed := true,
      slept := RETRY_PERIOD }

/-- Embedding of one iteration of `main`'s `while True` body (homework.py
lines 204-221): fetch, validate, set `timestamp = response['current_date']`,
then — only if `homeworks` is non-empty — format the first record and send;
any exception raised on that path is handled by the `except` block
(`handleError`).  The `current_date` subscript would raise `KeyError` if the
key were absent, but `check_response` succeeding guarantees it is present,
as it guarantees the response is a dict. -/
def run_cycle (st : LoopState) (o : HttpOutcome) (okTry okExc : Bool) :
    CycleResult :=
  match get_api_answer o with
  | .error e => handleError st e okExc []
  | .ok response =>
    match check_response response with
    | .error e => handleError st e okExc []
    | .ok homeworks =>
      match response with
      | .obj fields =>
        match lookupJson "current_date" fields with
        | none => handleError st (.keyErr "current_date") okExc []
        | some cd =>
          let st2 : LoopState := { st with timestamp := cd }
          match homeworks with
          | [] =>
            { state := st2, attempts := [], crashed := false,
              slept := RETRY_PERIOD }
          | hw :: _ =>
            match parse_status hw with
            | .error e => handleError st2 e okExc []
            | .ok msg =>
              match send_message okTry with
              | .ok _ =>
                { state := st2, attempts := [msg], crashed := false,
                  slept := RETRY_PERIOD }
              | .error e => handleError st2 e okExc [msg]
      | _ => handleError st (.typeErr "") okExc []

/-- One cycle's environment: the HTTP outcome and the two Telegram send
oracles. -/
structure CycleInput where
  outcome : HttpOutcome
  okTry : Bool
  okExc : Bool

/-- Several iterations of `main`'s loop: threads the state through
`run_cycle` and concatenates the send attempts, stopping early when an
iteration crashed the loop. -/
def run_loop (st : LoopState) : List CycleInput → LoopState × List String
  | [] => (st, [])
  | i :: rest =>
    let r := run_cycle st i.outcome i.okTry i.okExc
    if r.crashed then (r.state, r.attempts)
    else
      let next := run_loop r.state rest
      (next.1, r.attempts ++ next.2)

/-! ## Helper lemmas -/

/-- Helper: the except block never changes the time cursor. -/
theorem handleError_timestamp (st : LoopState) (e : PyError) (okExc : Bool)
    (prior : List String) :
    (handleError st e okExc prior).state.timestamp = st.timestamp := by
  simp only [handleError]
  split_ifs <;> rfl

/-! ## Claim theorems -/

/-- C1: for every API response that validates successfully and whose
non-empty `homeworks` sequence starts with a record carrying a name and a
status known to the verdict table, the cycle makes exactly one send
attempt, with the fixed-template message interpolating the name and the
mapped verdict, and the cursor becomes the response's `current_date` (the
deduplication cache is untouched). -/
theorem C1_success_notification
    (st : LoopState) (fields hwFields : List (String × Json))
    (rest : List Json) (cd : Json) (nm s v : String) (okExc : Bool)
    (hHw : lookupJson "homeworks" fields = some (.arr (.obj hwFields :: rest)))
    (hCd : lookupJson "current_date" fields = some cd)
    (hName : lookupJson "homework_name" hwFields = some (.str nm))
    (hStatus : lookupJson "status" hwFields = some (.str s))
    (hVerdict : lookupStr s HOMEWORK_VERDICTS = some v) :
    run_cycle st (.response 200 (.obj fields)) true okExc =
      { state := { timestamp := cd, last_message := st.last_message },
        attempts := ["Изменился статус проверки работы \"" ++ nm ++ "\". " ++ v],
        crashed := false, slept := RETRY_PERIOD } := by
  simp [run_cycle, get_api_answer, check_response, containsKey, hHw, hCd,
        parse_status, hName, hStatus, verdictLookup, hVerdict, pyStr,
        send_message]

/-- C1 witness: the spec's concrete scenario, from a fresh loop state. -/
theorem C1_success_notification_witness :
    run_cycle { timestamp := Json.int 0, last_message := none }
      (.response 200 (.obj
        [("homeworks", .arr [.obj [("homework_name", .str "proj1"),
                                   ("status", .str "approved")]]),
         ("current_date", .int 1700000000)])) true true =
      { state := { timestamp := Json.int 1700000000, last_message := none },
        attempts := ["Изменился статус проверки работы \"proj1\". Работа проверена: ревьюеру всё понравилось. Ура!"],
        crashed := false, slept := RETRY_PERIOD } := by
  exact C1_success_notification { timestamp := Json.int 0, last_message := none }
    [("homeworks", .arr [.obj [("homework_name", .str "proj1"),
                               ("status", .str "approved")]]),
     ("current_date", .int 1700000000)]
    [("homework_name", .str "proj1"), ("status", .str "approved")]
    [] (.int 1700000000) "proj1" "approved"
    "Работа проверена: ревьюеру всё понравилось. Ура!" true
    rfl rfl rfl rfl rfl

/-- C8: for every API response that validates successfully and whose
`homeworks` sequence is empty, no send is attempted during the cycle and
the cursor still advances to the response's `current_date`. -/
theorem C8_empty_homeworks
    (st : LoopState) (fields : List (String × Json)) (cd : Json)
    (okTry okExc : Bool)
    (hHw : lookupJson "homeworks" fields = some (.arr []))
    (hCd : lookupJson "current_date" fields = some cd) :
    run_cycle st (.response 200 (.obj fields)) okTry okExc =
      { state := { timestamp := cd, last_message := st.last_message },
        attempts := [], crashed := false, slept := RETRY_PERIOD } := by
  simp [run_cycle, get_api_answer, check_response, containsKey, hHw, hCd]

/-- C8 witness: the spec's concrete empty-homeworks scenario. -/
theorem C8_empty_homeworks_witness :
    run_cycle { timestamp := Json.int 0, last_message := none }
      (.response 200 (.obj [("homeworks", .arr []),
                            ("current_date", .int 1700000600)])) true true =
      { state := { timestamp := Json.int 1700000600, last_message := none },
        attempts := [], crashed := false, slept := RETRY_PERIOD } := by
  exact C8_empty_homeworks { timestamp := Json.int 0, last_message := none }
    [("homeworks", .arr []), ("current_date", .int 1700000600)]
    (.int 1700000600) true true rfl rfl

/-- C10: in every cycle whose response validates successfully, the final
cursor is the response's `current_date` no matter what the rest of the
cycle does — the assignment precedes formatting and sending, so a failure
in the format step or the notify step leaves the cursor already
advanced. -/
theorem C10_cursor_advances_before_notify
    (st : LoopState) (fields : List (String × Json)) (hws : List Json)
    (cd : Json) (okTry okExc : Bool)
    (hHw : lookupJson "homeworks" fields = some (.arr hws))
    (hCd : lookupJson "current_date" fields = some cd) :
    (run_cycle st (.response 200 (.obj fields)) okTry okExc).state.timestamp
      = cd := by
  simp [run_cycle, get_api_answer, check_response, containsKey, hHw, hCd]
  cases hws with
  | nil => rfl
  | cons hw rest =>
    cases h : parse_status hw with
    | error e => simp [h, handleError_timestamp]
    | ok msg =>
      cases okTry with
      | true => simp [h, send_message]
      | false => simp [h, send_message, handleError_timestamp]

/-- C10 witness: the unknown-status scenario — formatting fails, yet the
cursor has advanced to the response's `current_date`. -/
theorem C10_cursor_advances_before_notify_witness :
    (run_cycle { timestamp := Json.int 0, last_message := none }
      (.response 200 (.obj
        [("homeworks", .arr [.obj [("homework_name", .str "proj2"),
                                   ("status", .str "archived")]]),
         ("current_date", .int 1700001200)])) true true).state.timestamp =
      Json.int 1700001200 := by
  exact C10_cursor_advances_before_notify
    { timestamp := Json.int 0, last_message := none }
    [("homeworks", .arr [.obj [("homework_name", .str "proj2"),
                               ("status", .str "archived")]]),
     ("current_date", .int 1700001200)]
    [.obj [("homework_name", .str "proj2"), ("status", .str "archived")]]
    (.int 1700001200) true true rfl rfl

/-- C2: on a transport failure, `get_api_answer`'s `except` clause only
logs; what reaches the caller is the `UnboundLocalError` for the local
`response` — raised by referencing the response variable after the failed
request — and not the transport exception itself. -/
theorem C2_transport_failure_bug :
    get_api_answer .transportFail = .error (.nameErr "response") ∧
      get_api_answer .transportFail ≠ .error .requestExc := by
  refine ⟨rfl, fun h => ?_⟩
  simp [get_api_answer] at h

/-- C6: a record lacking `homework_name` or lacking `status` makes
`parse_status` fail, but with the `UnboundLocalError` for `status` that
slips past the `except KeyError` clause — not the missing-field `KeyError`
the function's docstring promises (that one was caught and only logged). -/
theorem C6_missing_field_bug :
    parse_status (.obj [("status", .str "approved")])
        = .error (.nameErr "status") ∧
      parse_status (.obj [("homework_name", .str "proj1")])
        = .error (.nameErr "status") :=
  ⟨rfl, rfl⟩

/-- C5 counterexample: a response whose `current_date` is a string, not an
integer timestamp, still validates — `check_response` never inspects the
type of `current_date`, so the claim's "correctly typed (current_date an
integer timestamp)" requirement is not enforced. -/
theorem C5_counterexample :
    check_response (.obj [("homeworks", .arr []),
                          ("current_date", .str "not an integer")])
      = .ok [] := rfl

/-- Modelled from the amended claim's words: the shape `check_response`
actually gates on — a mapping with a `homeworks` key holding a sequence and
a `current_date` key present, of whatever type. -/
def spec_validResponseShape : Json → Bool
  | .obj fields =>
    (match lookupJson "homeworks" fields with
     | some (.arr _) => true
     | _ => false) && containsKey "current_date" fields
  | _ => false

/-- Modelled from the amended claim's words: the `homeworks` sequence of a
response, when the response is a mapping holding one. -/
def spec_homeworksOf : Json → Option (List Json)
  | .obj fields =>
    (match lookupJson "homeworks" fields with
     | some (.arr l) => some l
     | _ => none)
  | _ => none

/-- C5 amended: `check_response` succeeds exactly on a mapping that has a
`homeworks` key holding a sequence and a `current_date` key of any type —
the integer-timestamp requirement is not checked — and on success it
returns the `homeworks` sequence; every other shape is rejected wholesale
with a `TypeError`. -/
theorem C5_shape_gate (j : Json) (l : List Json) :
    check_response j = .ok l ↔
      spec_validResponseShape j = true ∧ spec_homeworksOf j = some l := by
  cases j with
  | obj fields =>
    cases h : lookupJson "homeworks" fields with
    | none => simp [check_response, spec_validResponseShape, spec_homeworksOf, h]
    | some v =>
      cases hc : containsKey "current_date" fields <;> cases v <;>
        simp [check_response, spec_validResponseShape, spec_homeworksOf, h, hc]
  | null => simp [check_response, spec_validResponseShape, spec_homeworksOf]
  | bool b => simp [check_response, spec_validResponseShape, spec_homeworksOf]
  | int n => simp [check_response, spec_validResponseShape, spec_homeworksOf]
  | str s => simp [check_response, spec_validResponseShape, spec_homeworksOf]
  | arr elems => simp [check_response, spec_validResponseShape, spec_homeworksOf]

/-- C5 witness: the gate instantiated at a concrete well-shaped response
whose `current_date` is an integer and whose homeworks list is returned. -/
theorem C5_shape_gate_witness :
    check_response (.obj [("homeworks", .arr [Json.null]),
                          ("current_date", .int 5)])
      = .ok [Json.null] :=
  (C5_shape_gate (.obj [("homeworks", .arr [Json.null]),
                        ("current_date", .int 5)]) [Json.null]).mpr ⟨rfl, rfl⟩

/-- C9 counterexample: on HTTP 503 the one notification sent is the bare
prefix with an empty error rendering — `requests.HTTPError()` is raised
with no arguments — and a 404 cycle produces the identical text, so the
notification does not identify the non-200 status. -/
theorem C9_counterexample :
    (run_cycle { timestamp := Json.int 0, last_message := none }
        (.response 503 Json.null) true true).attempts
      = ["Сбой в работе программы: "] ∧
    (run_cycle { timestamp := Json.int 0, last_message := none }
        (.response 503 Json.null) true true).attempts
      = (run_cycle { timestamp := Json.int 0, last_message := none }
          (.response 404 Json.null) true true).attempts :=
  ⟨rfl, rfl⟩

/-- C9 amended: when the HTTP call completes with a non-200 status,
`get_api_answer` raises a bare `requests.HTTPError`; when the loop's error
message differs from the last one and the direct send succeeds, exactly one
error notification is sent, with the generic text
`Сбой в работе программы: ` whose error detail is empty (identifying
neither the status code nor that it was non-200); the cursor is unchanged
and the cycle ends with the fixed 600-second sleep. -/
theorem C9_non200_cycle
    (st : LoopState) (status : Nat) (body : Json) (okTry : Bool)
    (hs : status ≠ 200)
    (hNew : st.last_message ≠ some "Сбой в работе программы: ") :
    run_cycle st (.response status body) okTry true =
      { state := { timestamp := st.timestamp,
                   last_message := some "Сбой в работе программы: " },
        attempts := ["Сбой в работе программы: "], crashed := false,
        slept := RETRY_PERIOD } := by
  simp [run_cycle, get_api_answer, hs, handleError, renderError, hNew]

/-- C9 witness: the spec's 503 scenario from a fresh loop state. -/
theorem C9_non200_cycle_witness :
    run_cycle { timestamp := Json.int 1699999000, last_message := none }
      (.response 503 Json.null) true true =
      { state := { timestamp := Json.int 1699999000,
                   last_message := some "Сбой в работе программы: " },
        attempts := ["Сбой в работе программы: "], crashed := false,
        slept := RETRY_PERIOD } := by
  exact C9_non200_cycle { timestamp := Json.int 1699999000, last_message := none }
    503 Json.null true (by decide) (by decide)

/-- C7: when the first homework record carries both keys but its status
string is not in the verdict table, `parse_status` raises
`KeyError('Недокументированный статус домашней работы')` and the loop's
failure path makes exactly one send attempt, whose text is the rendered
error (the generic prefix plus the quoted key), not a formatted verdict;
the attempt happens when the text differs from the last error message and
the direct send succeeds. -/
theorem C7_unknown_status_notification
    (st : LoopState) (fields hwFields : List (String × Json))
    (rest : List Json) (cd nameVal : Json) (s : String) (okTry : Bool)
    (hHw : lookupJson "homeworks" fields = some (.arr (.obj hwFields :: rest)))
    (hCd : lookupJson "current_date" fields = some cd)
    (hName : lookupJson "homework_name" hwFields = some nameVal)
    (hStatus : lookupJson "status" hwFields = some (.str s))
    (hUnknown : lookupStr s HOMEWORK_VERDICTS = none)
    (hNew : st.last_message ≠
      some "Сбой в работе программы: \x27Недокументированный статус домашней работы\x27") :
    run_cycle st (.response 200 (.obj fields)) okTry true =
      { state := { timestamp := cd,
                   last_message := some "Сбой в работе программы: \x27Недокументированный статус домашней работы\x27" },
        attempts := ["Сбой в работе программы: \x27Недокументированный статус домашней работы\x27"],
        crashed := false, slept := RETRY_PERIOD } := by
  simp [run_cycle, get_api_answer, check_response, containsKey, hHw, hCd,
        parse_status, hName, hStatus, verdictLookup, hUnknown, handleError,
        renderError, hNew]

/-- C7 witness: the spec's unknown-status scenario (`proj2`, `archived`)
from a fresh loop state. -/
theorem C7_unknown_status_notification_witness :
    run_cycle { timestamp := Json.int 0, last_message := none }
      (.response 200 (.obj
        [("homeworks", .arr [.obj [("homework_name", .str "proj2"),
                                   ("status", .str "archived")]]),
         ("current_date", .int 1700001200)])) true true =
      { state := { timestamp := Json.int 1700001200,
                   last_message := some "Сбой в работе программы: \x27Недокументированный статус домашней работы\x27" },
        attempts := ["Сбой в работе программы: \x27Недокументированный статус домашней работы\x27"],
        crashed := false, slept := RETRY_PERIOD } := by
  exact C7_unknown_status_notification
    { timestamp := Json.int 0, last_message := none }
    [("homeworks", .arr [.obj [("homework_name", .str "proj2"),
                               ("status", .str "archived")]]),
     ("current_date", .int 1700001200)]
    [("homework_name", .str "proj2"), ("status", .str "archived")]
    [] (.int 1700001200) (.str "proj2") "archived" true
    rfl rfl rfl rfl rfl (by decide)

/-- C4 counterexample: a cycle whose response is valid but whose
notification send fails makes a second send attempt in the same cycle —
the loop's catch-all renders the `NotSendMessageTelegram` failure and hands
it to `bot.send_message` — contradicting "logged only, no second
notification attempt for that same failure". -/
theorem C4_counterexample :
    (run_cycle { timestamp := Json.int 0, last_message := none }
      (.response 200 (.obj
        [("homeworks", .arr [.obj [("homework_name", .str "proj1"),
                                   ("status", .str "approved")]]),
         ("current_date", .int 1700000000)])) false true).attempts =
      ["Изменился статус проверки работы \"proj1\". Работа проверена: ревьюеру всё понравилось. Ура!",
       "Сбой в работе программы: Ошибка в работе TelegramBot, cообщениe не отправлено"] :=
  rfl

/-- C4 amended: when the wrapper send fails, the loop's catch-all treats
the `NotSendMessageTelegram` like any other error: it logs it and makes
exactly one direct `bot.send_message` attempt with the rendered error text
(when that text differs from the last error message).  The direct call
bypasses the wrapper, so there is no further recursion — the cycle's
attempts are exactly the failed template send and that one error send, and
if the direct send also fails the exception escapes the `except` block and
the loop terminates. -/
theorem C4_delivery_failure_second_attempt
    (st : LoopState) (fields hwFields : List (String × Json))
    (rest : List Json) (cd : Json) (nm s v : String) (okExc : Bool)
    (hHw : lookupJson "homeworks" fields = some (.arr (.obj hwFields :: rest)))
    (hCd : lookupJson "current_date" fields = some cd)
    (hName : lookupJson "homework_name" hwFields = some (.str nm))
    (hStatus : lookupJson "status" hwFields = some (.str s))
    (hVerdict : lookupStr s HOMEWORK_VERDICTS = some v)
    (hNew : st.last_message ≠
      some "Сбой в работе программы: Ошибка в работе TelegramBot, cообщениe не отправлено") :
    run_cycle st (.response 200 (.obj fields)) false okExc =
      { state := { timestamp := cd,
                   last_message := if okExc
                     then some "Сбой в работе программы: Ошибка в работе TelegramBot, cообщениe не отправлено"
                     else st.last_message },
        attempts := ["Изменился статус проверки работы \"" ++ nm ++ "\". " ++ v,
                     "Сбой в работе программы: Ошибка в работе TelegramBot, cообщениe не отправлено"],
        crashed := !okExc, slept := RETRY_PERIOD } := by
  cases okExc with
  | true =>
    simp [run_cycle, get_api_answer, check_response, containsKey, hHw, hCd,
          parse_status, hName, hStatus, verdictLookup, hVerdict, pyStr,
          send_message, handleError, renderError, hNew]
  | false =>
    simp [run_cycle, get_api_answer, check_response, containsKey, hHw, hCd,
          parse_status, hName, hStatus, verdictLookup, hVerdict, pyStr,
          send_message, handleError, renderError, hNew]

/-- C4 witness: the delivery-failure cycle at the concrete approved-homework
response, with the direct error send succeeding. -/
theorem C4_delivery_failure_second_attempt_witness :
    run_cycle { timestamp := Json.int 0, last_message := none }
      (.response 200 (.obj
        [("homeworks", .arr [.obj [("homework_name", .str "proj1"),
                                   ("status", .str "approved")]]),
         ("current_date", .int 1700000000)])) false true =
      { state := { timestamp := Json.int 1700000000,
                   last_message := if true
                     then some "Сбой в работе программы: Ошибка в работе TelegramBot, cообщениe не отправлено"
                     else none },
        attempts := ["Изменился статус проверки работы \"proj1\". Работа проверена: ревьюеру всё понравилось. Ура!",
                     "Сбой в работе программы: Ошибка в работе TelegramBot, cообщениe не отправлено"],
        crashed := !true, slept := RETRY_PERIOD } := by
  exact C4_delivery_failure_second_attempt
    { timestamp := Json.int 0, last_message := none }
    [("homeworks", .arr [.obj [("homework_name", .str "proj1"),
                               ("status", .str "approved")]]),
     ("current_date", .int 1700000000)]
    [("homework_name", .str "proj1"), ("status", .str "approved")]
    [] (.int 1700000000) "proj1" "approved"
    "Работа проверена: ревьюеру всё понравилось. Ура!" true
    rfl rfl rfl rfl rfl (by decide)

/-- Helper: a cycle whose fetch raises, from a state whose last error
message differs, sends one error notification and records it. -/
theorem run_cycle_error (st : LoopState) (o : HttpOutcome) (e : PyError) (okTry : Bool)
    (h : get_api_answer o = .error e)
    (hNew : st.last_message ≠ some ("Сбой в работе программы: " ++ renderError e)) :
    run_cycle st o okTry true =
      { state := { timestamp := st.timestamp,
                   last_message := some ("Сбой в работе программы: " ++ renderError e) },
        attempts := ["Сбой в работе программы: " ++ renderError e],
        crashed := false, slept := RETRY_PERIOD } := by
  simp [run_cycle, h, handleError, hNew]

/-- Helper: a cycle whose fetch raises, from a state whose last error
message is the same rendered text, is suppressed entirely. -/
theorem run_cycle_error_suppressed (st : LoopState) (o : HttpOutcome) (e : PyError)
    (okTry okExc : Bool)
    (h : get_api_answer o = .error e)
    (hSame : st.last_message = some ("Сбой в работе программы: " ++ renderError e)) :
    run_cycle st o okTry okExc =
      { state := st, attempts := [], crashed := false, slept := RETRY_PERIOD } := by
  simp [run_cycle, h, handleError, hSame]

/-- Helper: a successful empty-homeworks cycle at a fixed response — it
sends nothing and leaves `last_message` untouched. -/
theorem run_cycle_empty_success (st : LoopState) (okTry okExc : Bool) :
    run_cycle st (.response 200 (.obj [("homeworks", Json.arr []),
                                       ("current_date", Json.int 0)])) okTry okExc =
      { state := { timestamp := Json.int 0, last_message := st.last_message },
        attempts := [], crashed := false, slept := RETRY_PERIOD } := by
  simp [run_cycle, get_api_answer, check_response, containsKey, lookupJson]

/-- C3 counterexample: two cycles raising errors with identical rendered
text, separated by a successful (empty-homeworks) cycle, produce only ONE
notification — the second identical error is still suppressed, because a
successful cycle never clears `last_message`; the claim says deduplication
applies only against the immediately preceding failure. -/
theorem C3_counterexample :
    (run_loop { timestamp := Json.int 0, last_message := none }
      [⟨.response 503 Json.null, true, true⟩,
       ⟨.response 200 (.obj [("homeworks", .arr []),
                             ("current_date", .int 1700000600)]), true, true⟩,
       ⟨.response 503 Json.null, true, true⟩]).2
      = ["Сбой в работе программы: "] := rfl

/-- C3 amended: consecutive failing cycles with identical rendered text
notify only once, and with different texts notify twice — but the
deduplication compares against the last error notification ever recorded,
not only the immediately preceding cycle: `last_message` survives
successful cycles, so an identical error text recurring after an
intervening successful cycle is suppressed all the same. -/
theorem C3_dedup_last_sent
    (st : LoopState) (o1 o2 : HttpOutcome) (e1 e2 : PyError)
    (h1 : get_api_answer o1 = .error e1)
    (h2 : get_api_answer o2 = .error e2)
    (hFresh : st.last_message = none) :
    ((run_loop st [⟨o1, true, true⟩, ⟨o2, true, true⟩]).2 =
      if ("Сбой в работе программы: " ++ renderError e1)
          = ("Сбой в работе программы: " ++ renderError e2)
      then ["Сбой в работе программы: " ++ renderError e1]
      else ["Сбой в работе программы: " ++ renderError e1,
            "Сбой в работе программы: " ++ renderError e2]) ∧
    ((run_loop st [⟨o1, true, true⟩,
        ⟨.response 200 (.obj [("homeworks", .arr []),
                              ("current_date", .int 0)]), true, true⟩,
        ⟨o2, true, true⟩]).2 =
      if ("Сбой в работе программы: " ++ renderError e1)
          = ("Сбой в работе программы: " ++ renderError e2)
      then ["Сбой в работе программы: " ++ renderError e1]
      else ["Сбой в работе программы: " ++ renderError e1,
            "Сбой в работе программы: " ++ renderError e2]) := by
  have hNew1 : st.last_message ≠ some ("Сбой в работе программы: " ++ renderError e1) := by
    rw [hFresh]
    exact fun h => Option.noConfusion h
  have c1 := run_cycle_error st o1 e1 true h1 hNew1
  by_cases hm : ("Сбой в работе программы: " ++ renderError e1)
      = ("Сбой в работе программы: " ++ renderError e2)
  · rw [hm] at c1 ⊢
    have c2 := run_cycle_error_suppressed
      { timestamp := st.timestamp,
        last_message := some ("Сбой в работе программы: " ++ renderError e2) }
      o2 e2 true true h2 rfl
    have cm := run_cycle_empty_success
      { timestamp := st.timestamp,
        last_message := some ("Сбой в работе программы: " ++ renderError e2) } true true
    have c3 := run_cycle_error_suppressed
      { timestamp := Json.int 0,
        last_message := some ("Сбой в работе программы: " ++ renderError e2) }
      o2 e2 true true h2 rfl
    constructor <;> simp [run_loop, c1, c2, cm, c3]
  · have hNew2 : (some ("Сбой в работе программы: " ++ renderError e1) : Option String)
        ≠ some ("Сбой в работе программы: " ++ renderError e2) := by simp [hm]
    have c2 := run_cycle_error
      { timestamp := st.timestamp,
        last_message := some ("Сбой в работе программы: " ++ renderError e1) }
      o2 e2 true h2 hNew2
    have cm := run_cycle_empty_success
      { timestamp := st.timestamp,
        last_message := some ("Сбой в работе программы: " ++ renderError e1) } true true
    have c3 := run_cycle_error
      { timestamp := Json.int 0,
        last_message := some ("Сбой в работе программы: " ++ renderError e1) }
      o2 e2 true h2 hNew2
    constructor <;> simp [run_loop, c1, c2, cm, c3, hm]

/-- C3 witness: a 503 cycle then a transport-failure cycle (different
rendered texts — both notify), and the same pair separated by a successful
empty cycle. -/
theorem C3_dedup_last_sent_witness :
    ((run_loop { timestamp := Json.int 0, last_message := none }
        [⟨.response 503 Json.null, true, true⟩, ⟨.transportFail, true, true⟩]).2 =
      ["Сбой в работе программы: ",
       "Сбой в работе программы: local variable \x27response\x27 referenced before assignment"]) ∧
    ((run_loop { timestamp := Json.int 0, last_message := none }
        [⟨.response 503 Json.null, true, true⟩,
         ⟨.response 200 (.obj [("homeworks", .arr []),
                               ("current_date", .int 0)]), true, true⟩,
         ⟨.transportFail, true, true⟩]).2 =
      ["Сбой в работе программы: ",
       "Сбой в работе программы: local variable \x27response\x27 referenced before assignment"]) := by
  have h := C3_dedup_last_sent { timestamp := Json.int 0, last_message := none }
    (.response 503 Json.null) .transportFail .httpErr (.nameErr "response")
    rfl rfl rfl
  simpa [renderError] using h
